import Mathlib

/-!
Shallow embedding of the Simulation Orchestration Core of the nbody-gui
repository.

Numeric values (Python floats) are modelled as rationals `ℚ` for the
state-machine bookkeeping (positions are only stored, copied and compared
there), and as reals `ℝ` for the orbital-mechanics formulas in
`src/utils/physics.py`, which use `math.sqrt`.

The external integrator (`nbody.Kosmos`) is opaque in the source; its
single-step advance is modelled as an abstract function
`stepFn : ℚ → List NBody → List NBody` (dt and body list in, body list
out).  The integrator contract (§6 of the spec: order and length of the
body list are preserved) appears as an explicit hypothesis where needed.
-/

/-- `nbody.Body`: the external integrator's body record
(mass, x, y, vx, vy). -/
structure NBody where
  mass : ℚ
  x : ℚ
  y : ℚ
  vx : ℚ
  vy : ℚ
deriving DecidableEq, Repr

/-- `CelestialBody` from `src/models/body.py`: wrapper around `nbody.Body`
with authoring metadata and the initial-condition snapshot.  The snapshot
fields `initial_mass`, `initial_position`, `initial_velocity` are set by
the constructor; of the three setters only `set_mass` refreshes its
snapshot field (`initial_mass`). -/
structure CelestialBody where
  name : String
  color : String
  initial_mass : ℚ
  initial_position : ℚ × ℚ
  initial_velocity : ℚ × ℚ
  nbody_body : NBody
  is_selected : Bool
  is_setting_velocity : Bool
deriving DecidableEq, Repr

namespace CelestialBody

/-- `CelestialBody.__init__(name, mass, x, y, vx, vy, color)`. -/
def mk' (name : String) (mass x y vx vy : ℚ) (color : String) :
    CelestialBody where
  name := name
  color := color
  initial_mass := mass
  initial_position := (x, y)
  initial_velocity := (vx, vy)
  nbody_body := ⟨mass, x, y, vx, vy⟩
  is_selected := false
  is_setting_velocity := false

/-- `get_position`: `(self.nbody_body.get_x(), self.nbody_body.get_y())`. -/
def get_position (b : CelestialBody) : ℚ × ℚ :=
  (b.nbody_body.x, b.nbody_body.y)

/-- `get_velocity`. -/
def get_velocity (b : CelestialBody) : ℚ × ℚ :=
  (b.nbody_body.vx, b.nbody_body.vy)

/-- `get_mass`. -/
def get_mass (b : CelestialBody) : ℚ :=
  b.nbody_body.mass

/-- `set_position(x, y)`: recreates `nbody_body` with the current velocity
and mass and the new position.  Does not touch the initial snapshot. -/
def set_position (b : CelestialBody) (x y : ℚ) : CelestialBody :=
  { b with nbody_body :=
      ⟨b.nbody_body.mass, x, y, b.nbody_body.vx, b.nbody_body.vy⟩ }

/-- `set_velocity(vx, vy)`: recreates `nbody_body` with the current
position and mass and the new velocity.  Does not touch the initial
snapshot. -/
def set_velocity (b : CelestialBody) (vx vy : ℚ) : CelestialBody :=
  { b with nbody_body :=
      ⟨b.nbody_body.mass, b.nbody_body.x, b.nbody_body.y, vx, vy⟩ }

/-- `set_mass(mass)`: recreates `nbody_body` with the new mass and also
sets `initial_mass`.  No validation is performed here. -/
def set_mass (b : CelestialBody) (mass : ℚ) : CelestialBody :=
  { b with
      nbody_body :=
        ⟨mass, b.nbody_body.x, b.nbody_body.y, b.nbody_body.vx,
          b.nbody_body.vy⟩
      initial_mass := mass }

/-- `reset_to_initial`: recreates `nbody_body` from the initial
snapshot. -/
def reset_to_initial (b : CelestialBody) : CelestialBody :=
  { b with nbody_body :=
      ⟨b.initial_mass, b.initial_position.1, b.initial_position.2,
        b.initial_velocity.1, b.initial_velocity.2⟩ }

end CelestialBody

/-- `SimulationMode` from `src/models/simulation_state.py`. -/
inductive SimulationMode where
  | godMode
  | simulationMode
deriving DecidableEq, Repr

/-- `SimulationState` from `src/models/simulation_state.py`.  The
`kosmos` field holds the integrator handle, modelled as the list of
integrator bodies it was seeded with (updated by each step). -/
structure SimulationState where
  bodies : List CelestialBody
  kosmos : Option (List NBody)
  mode : SimulationMode
  is_running : Bool
  time_elapsed : ℚ
  time_step : ℚ
  time_warp : ℚ
  trajectories : List (List (ℚ × ℚ))
deriving DecidableEq, Repr

namespace SimulationState

/-- `SimulationState.__init__`. -/
def init : SimulationState where
  bodies := []
  kosmos := none
  mode := .godMode
  is_running := false
  time_elapsed := 0
  time_step := 3600
  time_warp := 1
  trajectories := []

/-- `add_body(body)`: appends to `bodies` and appends a fresh empty
trajectory. -/
def add_body (s : SimulationState) (b : CelestialBody) : SimulationState :=
  { s with bodies := s.bodies ++ [b], trajectories := s.trajectories ++ [[]] }

/-- `remove_body(body)`: if present, pops the body and the trajectory at
the same index (`self.bodies.index(body)`, first occurrence). -/
def remove_body (s : SimulationState) (b : CelestialBody) :
    SimulationState :=
  if b ∈ s.bodies then
    let i := s.bodies.indexOf b
    { s with bodies := s.bodies.eraseIdx i,
             trajectories := s.trajectories.eraseIdx i }
  else s

/-- The loop `for i, body in enumerate(self.bodies): self.trajectories[i]
= [body.get_position()]` in `switch_to_simulation_mode`.  When
`trajectories` is shorter than `bodies` Python raises `IndexError` after
assigning the common prefix; the recursion mirrors the assigned-prefix
state (unreachable when the alignment invariant holds). -/
def initTrajectories :
    List CelestialBody → List (List (ℚ × ℚ)) → List (List (ℚ × ℚ))
  | [], ts => ts
  | _ :: _, [] => []
  | b :: bs, _ :: ts => [b.get_position] :: initTrajectories bs ts

/-- `switch_to_simulation_mode`: no-op when already in simulation mode;
otherwise seeds the integrator with the bodies' `nbody_body` records (in
order), re-initialises each trajectory to the singleton of the body's
current position, sets the mode and resets elapsed time. -/
def switch_to_simulation_mode (s : SimulationState) : SimulationState :=
  if s.mode = .simulationMode then s
  else
    { s with
        kosmos := some (s.bodies.map (·.nbody_body))
        trajectories := initTrajectories s.bodies s.trajectories
        mode := .simulationMode
        time_elapsed := 0 }

/-- `switch_to_god_mode`: no-op when already in god mode; otherwise
discards the integrator, resets every body to its initial snapshot,
clears every trajectory (`[[] for _ in self.bodies]`), stops the run and
resets elapsed time. -/
def switch_to_god_mode (s : SimulationState) : SimulationState :=
  if s.mode = .godMode then s
  else
    { s with
        mode := .godMode
        is_running := false
        kosmos := none
        bodies := s.bodies.map CelestialBody.reset_to_initial
        trajectories := s.bodies.map (fun _ => [])
        time_elapsed := 0 }

/-- The body-update loop of `step_simulation`: `for i, body in
enumerate(self.bodies): body.nbody_body = updated_bodies[i];
self.trajectories[i].append(body.get_position())`.  Where the updated
list or the trajectory list runs out early, Python raises `IndexError`
after mutating the common prefix; those cases mirror the mutated-prefix
state and are unreachable under the integrator length contract and the
alignment invariant. -/
def stepLoop :
    List CelestialBody → List NBody → List (List (ℚ × ℚ)) →
      List CelestialBody × List (List (ℚ × ℚ))
  | [], _, ts => ([], ts)
  | bs, [], ts => (bs, ts)
  | b :: bs, nb :: _, [] => ({ b with nbody_body := nb } :: bs, [])
  | b :: bs, nb :: nbs, t :: ts =>
    let b' := { b with nbody_body := nb }
    let r := stepLoop bs nbs ts
    (b' :: r.1, (t ++ [b'.get_position]) :: r.2)

/-- `step_simulation`: returns unchanged unless in simulation mode with a
live integrator; otherwise advances the integrator by `time_step` (via
the abstract step function `stepFn`), copies the updated records back
into the bodies, appends each new position to the matching trajectory and
advances elapsed time. -/
def step_simulation (stepFn : ℚ → List NBody → List NBody)
    (s : SimulationState) : SimulationState :=
  match s.kosmos with
  | none => s
  | some ks =>
    if s.mode ≠ .simulationMode then s
    else
      let ks' := stepFn s.time_step ks
      let r := stepLoop s.bodies ks' s.trajectories
      { s with
          kosmos := some ks'
          time_elapsed := s.time_elapsed + s.time_step
          bodies := r.1
          trajectories := r.2 }

/-- `clear_all`: empties both collections and resets the machine to the
initial god-mode state (keeping `time_step`/`time_warp`). -/
def clear_all (s : SimulationState) : SimulationState :=
  { s with
      bodies := []
      trajectories := []
      kosmos := none
      is_running := false
      time_elapsed := 0
      mode := .godMode }

end SimulationState

namespace ControlPanel

/-- `ControlPanel.toggle_mode` (`src/gui/control_panel.py`): in god mode,
returns without any state change when there are no bodies; otherwise
switches to simulation mode and sets `is_running`.  In simulation mode it
does nothing.  (Widget reconfiguration and the `on_mode_change` callback
are pure UI and are omitted.) -/
def toggle_mode (s : SimulationState) : SimulationState :=
  if s.mode = .godMode then
    if s.bodies.length = 0 then s
    else { s.switch_to_simulation_mode with is_running := true }
  else s

end ControlPanel

namespace BodyEditorPanel

/-- The mass-update path of `BodyEditorPanel.apply_changes`
(`src/gui/body_editor.py`, lines 228-233), after the text field has been
parsed to a number: `if mass <= 0: raise ValueError("Mass must be
positive")`, caught below and surfaced as an error dialog, leaving the
body untouched; otherwise `set_mass` is called. -/
def apply_changes_mass (b : CelestialBody) (mass : ℚ) :
    Except String CelestialBody :=
  if mass ≤ 0 then .error ("Mass must be positive")
  else .ok (b.set_mass mass)

end BodyEditorPanel

/-- Camera-relevant state of `SimulationCanvas` (`src/gui/canvas.py`).
Matplotlib artists and widget handles are omitted; only the fields the
camera-tracking logic reads and writes are kept. -/
structure CanvasState where
  zoom_level : ℚ
  center_x : ℚ
  center_y : ℚ
  auto_zoom_to_cog : Bool
  capture_all_bodies : Bool
  focus_body_mode : Bool
  focused_body : Option CelestialBody
  frame_counter : ℕ
  is_panning : Bool
  pan_start_x : ℚ
  pan_start_y : ℚ
  pan_center_x_start : ℚ
  pan_center_y_start : ℚ
deriving DecidableEq, Repr

namespace CanvasState

/-- `SimulationCanvas.__init__` camera fields. -/
def init : CanvasState where
  zoom_level := 3
  center_x := 0
  center_y := 0
  auto_zoom_to_cog := false
  capture_all_bodies := false
  focus_body_mode := false
  focused_body := none
  frame_counter := 0
  is_panning := false
  pan_start_x := 0
  pan_start_y := 0
  pan_center_x_start := 0
  pan_center_y_start := 0

/-- `toggle_auto_zoom_cog`: flips only its own flag (the Python method
also returns the new flag for button styling). -/
def toggle_auto_zoom_cog (c : CanvasState) : CanvasState :=
  { c with auto_zoom_to_cog := !c.auto_zoom_to_cog }

/-- `toggle_capture_all`: flips only its own flag. -/
def toggle_capture_all (c : CanvasState) : CanvasState :=
  { c with capture_all_bodies := !c.capture_all_bodies }

/-- `set_focused_body(body)`: stores the target; a non-null target turns
focus mode on and clears the two other tracking flags, a null target
turns focus mode off. -/
def set_focused_body (c : CanvasState) (b : Option CelestialBody) :
    CanvasState :=
  match b with
  | some _ =>
    { c with focused_body := b, focus_body_mode := true,
             auto_zoom_to_cog := false, capture_all_bodies := false }
  | none => { c with focused_body := none, focus_body_mode := false }

/-- `zoom_in`: multiplies the zoom scale by 0.7.  Touches no tracking
flag. -/
def zoom_in (c : CanvasState) : CanvasState :=
  { c with zoom_level := c.zoom_level * (7 / 10) }

/-- `zoom_out`: multiplies the zoom scale by 1.3.  Touches no tracking
flag. -/
def zoom_out (c : CanvasState) : CanvasState :=
  { c with zoom_level := c.zoom_level * (13 / 10) }

/-- `reset_view`. -/
def reset_view (c : CanvasState) : CanvasState :=
  { c with zoom_level := 3, center_x := 0, center_y := 0 }

/-- `on_mouse_move` (`src/gui/canvas.py`, lines 221-250), camera-relevant
part: while panning in simulation mode, moves the view center by the drag
delta and, if any automatic-tracking flag is set, clears all three and
the focus target.  The god-mode branch only redraws the velocity arrow
and touches no camera field. -/
def on_mouse_move (c : CanvasState) (mode : SimulationMode)
    (cur_x cur_y : ℚ) : CanvasState :=
  if mode = .simulationMode ∧ c.is_panning then
    let dx := cur_x - c.pan_start_x
    let dy := cur_y - c.pan_start_y
    let c' := { c with center_x := c.pan_center_x_start - dx,
                       center_y := c.pan_center_y_start - dy }
    if c'.auto_zoom_to_cog ∨ c'.capture_all_bodies ∨ c'.focus_body_mode
    then
      { c' with auto_zoom_to_cog := false, capture_all_bodies := false,
                focus_body_mode := false, focused_body := none }
    else c'
  else c

/-- `min` over a nonempty Python list (the `[]` case is unreachable at
the call sites, which guard on nonemptiness). -/
def listMin : List ℚ → ℚ
  | [] => 0
  | q :: qs => qs.foldl min q

/-- `max` over a nonempty Python list. -/
def listMax : List ℚ → ℚ
  | [] => 0
  | q :: qs => qs.foldl max q

/-- `center_to_cog`: centers the view on the mass-weighted centroid; does
nothing when there are no bodies or the total mass is not positive. -/
def center_to_cog (c : CanvasState) (bodies : List CelestialBody) :
    CanvasState :=
  if bodies = [] then c
  else
    let total_mass := bodies.foldl (fun acc b => acc + b.get_mass) 0
    let cog_x := bodies.foldl
      (fun acc b => acc + b.get_mass * b.get_position.1) 0
    let cog_y := bodies.foldl
      (fun acc b => acc + b.get_mass * b.get_position.2) 0
    if total_mass > 0 then
      { c with center_x := cog_x / total_mass,
               center_y := cog_y / total_mass }
    else c

/-- `zoom_to_capture_all`: fits the view to the padded bounding box of
all body positions.  `au` stands for the external constant `nbody.AU`. -/
def zoom_to_capture_all (c : CanvasState) (au : ℚ)
    (bodies : List CelestialBody) : CanvasState :=
  if bodies = [] then c
  else
    let positions := bodies.map CelestialBody.get_position
    let x_coords := positions.map Prod.fst
    let y_coords := positions.map Prod.snd
    let min_x := listMin x_coords
    let max_x := listMax x_coords
    let min_y := listMin y_coords
    let max_y := listMax y_coords
    let x_range := max_x - min_x
    let y_range := max_y - min_y
    let padding : ℚ := 2 / 10
    let min_x := min_x - x_range * padding
    let max_x := max_x + x_range * padding
    let min_y := min_y - y_range * padding
    let max_y := max_y + y_range * padding
    let x_span := (max_x - min_x) / 2
    let y_span := (max_y - min_y) / 2
    let max_span := max x_span y_span
    { c with
        center_x := (min_x + max_x) / 2
        center_y := (min_y + max_y) / 2
        zoom_level := if max_span > 0 then max_span / au else 3 }

/-- The camera-update section of `SimulationCanvas.render`
(`src/gui/canvas.py`, lines 323-338): in simulation mode, bumps the frame
counter, then (highest priority) centers on the focus target when focus
mode is on, the target is non-null and the target is still a member of
`state.bodies`; otherwise recenters on the centre of gravity every 10th
frame when CoG tracking is on; otherwise fits all bodies when capture-all
is on.  The drawing part of `render` touches no camera field and is
omitted. -/
def render_camera_update (c : CanvasState) (au : ℚ)
    (s : SimulationState) : CanvasState :=
  if s.mode = .simulationMode then
    let c' := { c with frame_counter := c.frame_counter + 1 }
    match c'.focused_body with
    | some b =>
      if c'.focus_body_mode ∧ b ∈ s.bodies then
        { c' with center_x := b.get_position.1,
                  center_y := b.get_position.2 }
      else if c'.auto_zoom_to_cog ∧ c'.frame_counter % 10 = 0 then
        c'.center_to_cog s.bodies
      else if c'.capture_all_bodies then
        c'.zoom_to_capture_all au s.bodies
      else c'
    | none =>
      if c'.auto_zoom_to_cog ∧ c'.frame_counter % 10 = 0 then
        c'.center_to_cog s.bodies
      else if c'.capture_all_bodies then
        c'.zoom_to_capture_all au s.bodies
      else c'
  else c

end CanvasState

namespace NBodyApp

/-- `self.animation_steps_per_frame = 10` (`src/gui/app.py`). -/
def animation_steps_per_frame : ℕ := 10

/-- Python `int()` on a rational: truncation toward zero (floor for
non-negative values, ceiling for negative ones). -/
def pyInt (q : ℚ) : ℤ :=
  if q < 0 then ⌈q⌉ else ⌊q⌋

/-- The per-frame step count of `NBodyApp.animation_loop`
(`src/gui/app.py`, lines 209-210): `steps = int(10 * time_warp);
steps = max(1, min(steps, 1000))`. -/
def animation_steps (s : SimulationState) : ℤ :=
  max 1 (min (pyInt ((animation_steps_per_frame : ℚ) * s.time_warp)) 1000)

/-- `NBodyApp.animation_loop`, simulation part: when in simulation mode
and running, calls `step_simulation` exactly `animation_steps` times
(rendering, time display and rescheduling are UI and are omitted). -/
def animation_loop (stepFn : ℚ → List NBody → List NBody)
    (s : SimulationState) : SimulationState :=
  if s.mode = .simulationMode ∧ s.is_running then
    (SimulationState.step_simulation stepFn)^[(animation_steps s).toNat] s
  else s

/-- Modelled from the spec: the per-frame step count the spec claims,
`clamp(round(base_rate * time_warp), 1, 1000)`, for comparison with the
code's `animation_steps` (which truncates instead of rounding). -/
def claimed_steps (time_warp : ℚ) : ℤ :=
  max 1 (min (round ((animation_steps_per_frame : ℚ) * time_warp)) 1000)

end NBodyApp

/-- `calculate_orbital_velocity` (`src/utils/physics.py`): circular-orbit
speed `sqrt(G*(M+m)/r)`, 0 when the distance is not positive.  Python
floats are modelled as reals, `math.sqrt` as `Real.sqrt`. -/
noncomputable def calculate_orbital_velocity
    (central_mass orbiting_mass distance G : ℝ) : ℝ :=
  if distance ≤ 0 then 0
  else Real.sqrt (G * (central_mass + orbiting_mass) / distance)

/-- `calculate_orbital_velocity_vector` (`src/utils/physics.py`): the
speed-scaled perpendicular of the normalised separation vector, zero when
the two positions coincide. -/
noncomputable def calculate_orbital_velocity_vector
    (central_pos orbiting_pos : ℝ × ℝ)
    (central_mass orbiting_mass G : ℝ) (clockwise : Bool) : ℝ × ℝ :=
  let dx := orbiting_pos.1 - central_pos.1
  let dy := orbiting_pos.2 - central_pos.2
  let distance := Real.sqrt (dx ^ 2 + dy ^ 2)
  if distance = 0 then (0, 0)
  else
    let speed :=
      calculate_orbital_velocity central_mass orbiting_mass distance G
    let dx_norm := dx / distance
    let dy_norm := dy / distance
    if clockwise then (speed * dy_norm, -speed * dx_norm)
    else (-speed * dy_norm, speed * dx_norm)

/-!  Theorems. -/

/-- C10: `set_position` leaves the body's mass and velocity unchanged and
`set_velocity` leaves its mass and position unchanged; neither call
modifies the stored initial snapshot (`initial_mass`, `initial_position`,
`initial_velocity`). -/
theorem c10_setters_touch_only_their_field (b : CelestialBody)
    (x y vx vy : ℚ) :
    (b.set_position x y).get_mass = b.get_mass ∧
    (b.set_position x y).get_velocity = b.get_velocity ∧
    (b.set_position x y).initial_mass = b.initial_mass ∧
    (b.set_position x y).initial_position = b.initial_position ∧
    (b.set_position x y).initial_velocity = b.initial_velocity ∧
    (b.set_velocity vx vy).get_mass = b.get_mass ∧
    (b.set_velocity vx vy).get_position = b.get_position ∧
    (b.set_velocity vx vy).initial_mass = b.initial_mass ∧
    (b.set_velocity vx vy).initial_position = b.initial_position ∧
    (b.set_velocity vx vy).initial_velocity = b.initial_velocity :=
  ⟨rfl, rfl, rfl, rfl, rfl, rfl, rfl, rfl, rfl, rfl⟩

/-- C1 (counterexample): a body created at position (0, 0) and then moved
to (1, 2) with `set_position` does not get its pre-entry position back
from `switch_to_simulation_mode` followed by `switch_to_god_mode` — it
reverts to (0, 0), because `set_position` does not refresh
`initial_position` and the exit transition resets to the initial
snapshot. -/
theorem c1_counterexample :
    ((SimulationState.init.add_body
        ((CelestialBody.mk' ("A") 1 0 0 0 0
          ("#FFFFFF")).set_position 1 2)).switch_to_simulation_mode.switch_to_god_mode).bodies.map
        CelestialBody.get_position ≠
      (SimulationState.init.add_body
        ((CelestialBody.mk' ("A") 1 0 0 0 0
          ("#FFFFFF")).set_position 1 2)).bodies.map
        CelestialBody.get_position := by
  decide

/-- C1 (amended): entering playback then exiting restores every body's
(mass, position, velocity) to its stored initial snapshot —
`initial_mass` (which `set_mass` refreshes) and the creation-time
`initial_position`/`initial_velocity` (which `set_position`/`set_velocity`
do not refresh).  Pre-entry values are therefore restored exactly for
bodies whose position and velocity were not edited after creation. -/
theorem c1_round_trip_restores_initial_snapshot (s : SimulationState) :
    (s.switch_to_simulation_mode.switch_to_god_mode).bodies.map
        (fun b => (b.get_mass, b.get_position, b.get_velocity)) =
      s.bodies.map
        (fun b => (b.initial_mass, b.initial_position,
          b.initial_velocity)) := by
  have hb : (s.switch_to_simulation_mode.switch_to_god_mode).bodies
      = s.bodies.map CelestialBody.reset_to_initial := by
    rcases hm : s.mode with _ | _ <;>
      simp [SimulationState.switch_to_simulation_mode,
        SimulationState.switch_to_god_mode, hm]
  rw [hb, List.map_map]
  rfl

/-- C2 (counterexample): `CelestialBody.set_mass` performs no validation:
applied to a body of mass 1 with the non-positive value -1 it is not
rejected and changes the mass to -1. -/
theorem c2_counterexample :
    ((CelestialBody.mk' ("A") 1 0 0 0 0 ("#FFFFFF")).set_mass
        (-1)).get_mass ≠
      (CelestialBody.mk' ("A") 1 0 0 0 0 ("#FFFFFF")).get_mass := by
  decide

/-- C2 (amended): the mass-≤-0 validation lives in the editor layer, not
in the entity: `BodyEditorPanel.apply_changes` rejects any parsed mass
value v ≤ 0 with a validation failure before calling `set_mass`, leaving
the body (mass, position, velocity) untouched, while
`CelestialBody.set_mass` itself accepts any value. -/
theorem c2_editor_rejects_nonpositive_mass (b : CelestialBody) (v : ℚ)
    (h : v ≤ 0) :
    BodyEditorPanel.apply_changes_mass b v =
      Except.error ("Mass must be positive") := by
  simp [BodyEditorPanel.apply_changes_mass, h]

/-- C2 (witness): the amended theorem applied at mass value 0. -/
theorem c2_editor_rejects_nonpositive_mass_witness :
    (0 : ℚ) ≤ 0 ∧
      BodyEditorPanel.apply_changes_mass
          (CelestialBody.mk' ("A") 1 0 0 0 0 ("#FFFFFF")) 0 =
        Except.error ("Mass must be positive") :=
  ⟨le_refl 0,
    c2_editor_rejects_nonpositive_mass
      (CelestialBody.mk' ("A") 1 0 0 0 0 ("#FFFFFF")) 0 (le_refl 0)⟩

/-- C6: attempting the authoring-to-playback transition with an empty
body collection (via `ControlPanel.toggle_mode`, the sole caller of
`switch_to_simulation_mode`) is a complete no-op: mode, trajectories,
elapsed time and the integrator handle are all unchanged. -/
theorem c6_empty_transition_is_noop (s : SimulationState)
    (hmode : s.mode = SimulationMode.godMode) (hempty : s.bodies = []) :
    ControlPanel.toggle_mode s = s := by
  simp [ControlPanel.toggle_mode, hmode, hempty]

/-- The body-update loop leaves the number of bodies unchanged. -/
theorem stepLoop_length_fst (bs : List CelestialBody) (nbs : List NBody)
    (ts : List (List (ℚ × ℚ))) :
    (SimulationState.stepLoop bs nbs ts).1.length = bs.length := by
  induction bs generalizing nbs ts with
  | nil =>
    cases nbs <;> cases ts <;> rfl
  | cons b bs ih =>
    cases nbs with
    | nil => rfl
    | cons nb nbs =>
      cases ts with
      | nil => rfl
      | cons t ts => simp [SimulationState.stepLoop, ih]

/-- The body-update loop leaves the number of trajectories unchanged. -/
theorem stepLoop_length_snd (bs : List CelestialBody) (nbs : List NBody)
    (ts : List (List (ℚ × ℚ))) :
    (SimulationState.stepLoop bs nbs ts).2.length = ts.length := by
  induction bs generalizing nbs ts with
  | nil =>
    cases nbs <;> cases ts <;> rfl
  | cons b bs ih =>
    cases nbs with
    | nil => rfl
    | cons nb nbs =>
      cases ts with
      | nil => rfl
      | cons t ts => simp [SimulationState.stepLoop, ih]

/-- Under the alignment invariant, the trajectory re-initialisation loop
of `switch_to_simulation_mode` sets every trajectory to the singleton of
the corresponding body's current position. -/
theorem initTrajectories_of_length_eq (bs : List CelestialBody)
    (ts : List (List (ℚ × ℚ))) (h : ts.length = bs.length) :
    SimulationState.initTrajectories bs ts =
      bs.map fun b => [b.get_position] := by
  induction bs generalizing ts with
  | nil =>
    cases ts with
    | nil => rfl
    | cons t ts => simp at h
  | cons b bs ih =>
    cases ts with
    | nil => simp at h
    | cons t ts =>
      simp only [List.length_cons, Nat.add_right_cancel_iff] at h
      simp [SimulationState.initTrajectories, ih ts h]

/-- C3: every one of the six state-machine operations preserves the
alignment invariant `len(trajectories) == len(bodies)` (for
`step_simulation` under an arbitrary integrator step function). -/
theorem c3_alignment_invariant_preserved (s : SimulationState)
    (b : CelestialBody) (stepFn : ℚ → List NBody → List NBody)
    (h : s.trajectories.length = s.bodies.length) :
    ((s.add_body b).trajectories.length = (s.add_body b).bodies.length) ∧
    ((s.remove_body b).trajectories.length =
      (s.remove_body b).bodies.length) ∧
    (s.clear_all.trajectories.length = s.clear_all.bodies.length) ∧
    (s.switch_to_simulation_mode.trajectories.length =
      s.switch_to_simulation_mode.bodies.length) ∧
    (s.switch_to_god_mode.trajectories.length =
      s.switch_to_god_mode.bodies.length) ∧
    ((s.step_simulation stepFn).trajectories.length =
      (s.step_simulation stepFn).bodies.length) := by
  refine ⟨?_, ?_, ?_, ?_, ?_, ?_⟩
  · simp [SimulationState.add_body, h]
  · unfold SimulationState.remove_body
    by_cases hb : b ∈ s.bodies
    · have hi : s.bodies.indexOf b < s.bodies.length :=
        List.indexOf_lt_length.2 hb
      simp only [hb, if_true]
      rw [List.length_eraseIdx, List.length_eraseIdx]
      simp [h, hi]
    · simp [hb, h]
  · rfl
  · unfold SimulationState.switch_to_simulation_mode
    by_cases hm : s.mode = SimulationMode.simulationMode
    · simp [hm, h]
    · simp [hm, initTrajectories_of_length_eq _ _ h]
  · unfold SimulationState.switch_to_god_mode
    by_cases hm : s.mode = SimulationMode.godMode
    · simp [hm, h]
    · simp [hm]
  · rcases hk : s.kosmos with _ | ks
    · simp [SimulationState.step_simulation, hk, h]
    · by_cases hm : s.mode = SimulationMode.simulationMode
      · simp [SimulationState.step_simulation, hk, hm,
          stepLoop_length_fst, stepLoop_length_snd, h]
      · simp [SimulationState.step_simulation, hk, hm, h]

/-- C3 (witness): the theorem applied to the initial state, a concrete
body and the identity step function. -/
theorem c3_alignment_invariant_preserved_witness :
    SimulationState.init.trajectories.length =
      SimulationState.init.bodies.length ∧
    (((SimulationState.init.add_body
        (CelestialBody.mk' ("W") 1 0 0 0 0 ("#FFFFFF"))).trajectories.length =
      (SimulationState.init.add_body
        (CelestialBody.mk' ("W") 1 0 0 0 0 ("#FFFFFF"))).bodies.length) ∧
    ((SimulationState.init.remove_body
        (CelestialBody.mk' ("W") 1 0 0 0 0 ("#FFFFFF"))).trajectories.length =
      (SimulationState.init.remove_body
        (CelestialBody.mk' ("W") 1 0 0 0 0 ("#FFFFFF"))).bodies.length) ∧
    (SimulationState.init.clear_all.trajectories.length =
      SimulationState.init.clear_all.bodies.length) ∧
    (SimulationState.init.switch_to_simulation_mode.trajectories.length =
      SimulationState.init.switch_to_simulation_mode.bodies.length) ∧
    (SimulationState.init.switch_to_god_mode.trajectories.length =
      SimulationState.init.switch_to_god_mode.bodies.length) ∧
    ((SimulationState.init.step_simulation
        (fun _ l => l)).trajectories.length =
      (SimulationState.init.step_simulation
        (fun _ l => l)).bodies.length)) :=
  ⟨rfl,
    c3_alignment_invariant_preserved SimulationState.init
      (CelestialBody.mk' ("W") 1 0 0 0 0 ("#FFFFFF")) (fun _ l => l) rfl⟩

/-- A map of a function satisfying a pointwise relation with its argument
yields `Forall₂` against the original list. -/
theorem forall₂_map_self {α β : Type _} {R : β → α → Prop} {f : α → β}
    (h : ∀ a, R (f a) a) (l : List α) : List.Forall₂ R (l.map f) l := by
  induction l with
  | nil => exact .nil
  | cons a l ih => exact .cons (h a) ih

/-- The body-update loop grows every trajectory by exactly the updated
body's position: trajectories of length n index-aligned with the bodies
become trajectories of length n+1 ending in the new positions. -/
theorem stepLoop_forall₂ (n : ℕ) (bs : List CelestialBody)
    (nbs : List NBody) (ts : List (List (ℚ × ℚ)))
    (h : bs.length = nbs.length)
    (hf : List.Forall₂
      (fun t (b : CelestialBody) =>
        t.length = n ∧ t.getLast? = some b.get_position) ts bs) :
    List.Forall₂
      (fun t (b : CelestialBody) =>
        t.length = n + 1 ∧ t.getLast? = some b.get_position)
      (SimulationState.stepLoop bs nbs ts).2
      (SimulationState.stepLoop bs nbs ts).1 := by
  induction bs generalizing nbs ts with
  | nil =>
    cases hf
    cases nbs with
    | nil => exact .nil
    | cons nb nbs => simp at h
  | cons b bs ih =>
    cases nbs with
    | nil => simp at h
    | cons nb nbs =>
      cases hf with
      | cons hrel htail =>
        simp only [List.length_cons, Nat.add_right_cancel_iff] at h
        simp only [SimulationState.stepLoop]
        exact .cons ⟨by simp [hrel.1], by simp⟩ (ih nbs _ h htail)

/-- One `step_simulation` call in a live playback state keeps the mode,
keeps a live integrator aligned with the bodies, and extends every
trajectory by the corresponding body's new position. -/
theorem step_simulation_inv (stepFn : ℚ → List NBody → List NBody)
    (hlen : ∀ dt l, (stepFn dt l).length = l.length) (n : ℕ)
    (t : SimulationState) (hm : t.mode = SimulationMode.simulationMode)
    (hk : ∃ ks, t.kosmos = some ks ∧ ks.length = t.bodies.length)
    (hf : List.Forall₂
      (fun tr (b : CelestialBody) =>
        tr.length = n ∧ tr.getLast? = some b.get_position)
      t.trajectories t.bodies) :
    (t.step_simulation stepFn).mode = SimulationMode.simulationMode ∧
    (∃ ks, (t.step_simulation stepFn).kosmos = some ks ∧
      ks.length = (t.step_simulation stepFn).bodies.length) ∧
    List.Forall₂
      (fun tr (b : CelestialBody) =>
        tr.length = n + 1 ∧ tr.getLast? = some b.get_position)
      (t.step_simulation stepFn).trajectories
      (t.step_simulation stepFn).bodies := by
  obtain ⟨ks, hks, hkslen⟩ := hk
  have hmne : ¬ t.mode ≠ SimulationMode.simulationMode := by simp [hm]
  have hlen' : t.bodies.length = (stepFn t.time_step ks).length := by
    rw [hlen, hkslen]
  simp only [SimulationState.step_simulation, hks, hmne, if_false,
    reduceCtorEq, ite_false]
  refine ⟨hm, ⟨stepFn t.time_step ks, rfl, ?_⟩, ?_⟩
  · rw [stepLoop_length_fst, ← hlen']
  · exact stepLoop_forall₂ n _ _ _ hlen' hf

/-- C4: from any aligned authoring state, `switch_to_simulation_mode`
re-initialises every trajectory to the one-element list holding that
body's position at entry, and after k subsequent `step_simulation` calls
(under any integrator step function honouring the length contract) every
trajectory is index-aligned with the bodies, has length 1 + k and ends in
that body's current position. -/
theorem c4_trajectory_accumulation (stepFn : ℚ → List NBody → List NBody)
    (hlen : ∀ dt l, (stepFn dt l).length = l.length)
    (s : SimulationState) (hmode : s.mode = SimulationMode.godMode)
    (halign : s.trajectories.length = s.bodies.length) (k : ℕ) :
    List.Forall₂
      (fun t (b : CelestialBody) =>
        t.length = 1 + k ∧ t.getLast? = some b.get_position)
      (((SimulationState.step_simulation stepFn)^[k]
          s.switch_to_simulation_mode).trajectories)
      (((SimulationState.step_simulation stepFn)^[k]
          s.switch_to_simulation_mode).bodies) := by
  have hm' : ¬ s.mode = SimulationMode.simulationMode := by simp [hmode]
  have base :
      s.switch_to_simulation_mode.mode = SimulationMode.simulationMode ∧
      (∃ ks, s.switch_to_simulation_mode.kosmos = some ks ∧
        ks.length = s.switch_to_simulation_mode.bodies.length) ∧
      List.Forall₂
        (fun t (b : CelestialBody) =>
          t.length = 1 ∧ t.getLast? = some b.get_position)
        s.switch_to_simulation_mode.trajectories
        s.switch_to_simulation_mode.bodies := by
    refine ⟨?_, ⟨s.bodies.map (·.nbody_body), ?_, ?_⟩, ?_⟩ <;>
      simp only [SimulationState.switch_to_simulation_mode, hm',
        ite_false, List.length_map]
    rw [initTrajectories_of_length_eq _ _ halign]
    exact forall₂_map_self (fun b => ⟨rfl, by simp⟩) s.bodies
  have main : ∀ k,
      ((SimulationState.step_simulation stepFn)^[k]
        s.switch_to_simulation_mode).mode =
          SimulationMode.simulationMode ∧
      (∃ ks, ((SimulationState.step_simulation stepFn)^[k]
          s.switch_to_simulation_mode).kosmos = some ks ∧
        ks.length = ((SimulationState.step_simulation stepFn)^[k]
          s.switch_to_simulation_mode).bodies.length) ∧
      List.Forall₂
        (fun t (b : CelestialBody) =>
          t.length = 1 + k ∧ t.getLast? = some b.get_position)
        (((SimulationState.step_simulation stepFn)^[k]
            s.switch_to_simulation_mode).trajectories)
        (((SimulationState.step_simulation stepFn)^[k]
            s.switch_to_simulation_mode).bodies) := by
    intro k
    induction k with
    | zero => exact base
    | succ k ih =>
      rw [Function.iterate_succ_apply']
      exact step_simulation_inv stepFn hlen (1 + k) _ ih.1 ih.2.1 ih.2.2
  exact (main k).2.2

/-- C4 (witness): the theorem applied with the identity step function, a
one-body initial state and k = 2. -/
theorem c4_trajectory_accumulation_witness :
    (∀ (dt : ℚ) (l : List NBody),
      ((fun (_ : ℚ) (l : List NBody) => l) dt l).length = l.length) ∧
    (SimulationState.init.add_body
      (CelestialBody.mk' ("A") 1 0 0 0 0 ("#FFFFFF"))).mode =
        SimulationMode.godMode ∧
    (SimulationState.init.add_body
      (CelestialBody.mk' ("A") 1 0 0 0 0
        ("#FFFFFF"))).trajectories.length =
      (SimulationState.init.add_body
        (CelestialBody.mk' ("A") 1 0 0 0 0
          ("#FFFFFF"))).bodies.length ∧
    List.Forall₂
      (fun t (b : CelestialBody) =>
        t.length = 1 + 2 ∧ t.getLast? = some b.get_position)
      (((SimulationState.step_simulation (fun _ l => l))^[2]
          (SimulationState.init.add_body
            (CelestialBody.mk' ("A") 1 0 0 0 0
              ("#FFFFFF"))).switch_to_simulation_mode).trajectories)
      (((SimulationState.step_simulation (fun _ l => l))^[2]
          (SimulationState.init.add_body
            (CelestialBody.mk' ("A") 1 0 0 0 0
              ("#FFFFFF"))).switch_to_simulation_mode).bodies) :=
  ⟨fun _ _ => rfl, rfl, rfl,
    c4_trajectory_accumulation (fun _ l => l) (fun _ _ => rfl)
      (SimulationState.init.add_body
        (CelestialBody.mk' ("A") 1 0 0 0 0 ("#FFFFFF"))) rfl rfl 2⟩

/-- C5: `calculate_orbital_velocity_vector` returns the zero vector when
the two positions coincide; otherwise it returns a vector whose magnitude
is `sqrt(G*(central_mass+orbiting_mass)/distance)`, perpendicular to the
separation vector from the central to the orbiting position, equal to the
speed-scaled +90°-rotation of the normalised separation for
`clockwise = false` and to its −90°-rotation for `clockwise = true`. -/
theorem c5_orbital_velocity_vector_spec (cpos opos : ℝ × ℝ)
    (M m G : ℝ) (cw : Bool) :
    (cpos = opos →
      calculate_orbital_velocity_vector cpos opos M m G cw = (0, 0)) ∧
    (cpos ≠ opos →
      ∀ dx dy dist speed : ℝ, dx = opos.1 - cpos.1 → dy = opos.2 - cpos.2 →
        dist = Real.sqrt (dx ^ 2 + dy ^ 2) →
        speed = Real.sqrt (G * (M + m) / dist) →
        Real.sqrt
            ((calculate_orbital_velocity_vector cpos opos M m G cw).1 ^ 2 +
              (calculate_orbital_velocity_vector cpos opos M m G cw).2 ^ 2) =
          speed ∧
        (calculate_orbital_velocity_vector cpos opos M m G cw).1 * dx +
          (calculate_orbital_velocity_vector cpos opos M m G cw).2 * dy = 0 ∧
        (cw = false →
          calculate_orbital_velocity_vector cpos opos M m G cw =
            (speed * (-(dy / dist)), speed * (dx / dist))) ∧
        (cw = true →
          calculate_orbital_velocity_vector cpos opos M m G cw =
            (speed * (dy / dist), speed * (-(dx / dist))))) := by
  constructor
  · intro h
    subst h
    simp [calculate_orbital_velocity_vector]
  · intro h dx dy dist speed hdx hdy hdist hspeed
    subst hdx; subst hdy; subst hdist; subst hspeed
    have hne : opos.1 - cpos.1 ≠ 0 ∨ opos.2 - cpos.2 ≠ 0 := by
      by_contra hc
      push_neg at hc
      exact h (Prod.ext_iff.2
        ⟨(sub_eq_zero.1 hc.1).symm, (sub_eq_zero.1 hc.2).symm⟩)
    have hpos : 0 < (opos.1 - cpos.1) ^ 2 + (opos.2 - cpos.2) ^ 2 := by
      rcases hne with h1 | h1
      · have h2 : 0 < |opos.1 - cpos.1| := abs_pos.2 h1
        have h3 : 0 < |opos.1 - cpos.1| ^ 2 := pow_pos h2 2
        rw [sq_abs] at h3
        nlinarith [sq_nonneg (opos.2 - cpos.2)]
      · have h2 : 0 < |opos.2 - cpos.2| := abs_pos.2 h1
        have h3 : 0 < |opos.2 - cpos.2| ^ 2 := pow_pos h2 2
        rw [sq_abs] at h3
        nlinarith [sq_nonneg (opos.1 - cpos.1)]
    have hdpos :
        0 < Real.sqrt ((opos.1 - cpos.1) ^ 2 + (opos.2 - cpos.2) ^ 2) :=
      Real.sqrt_pos.2 hpos
    have hd0 :
        Real.sqrt ((opos.1 - cpos.1) ^ 2 + (opos.2 - cpos.2) ^ 2) ≠ 0 :=
      ne_of_gt hdpos
    have hdd :
        Real.sqrt ((opos.1 - cpos.1) ^ 2 + (opos.2 - cpos.2) ^ 2) ^ 2 =
          (opos.1 - cpos.1) ^ 2 + (opos.2 - cpos.2) ^ 2 :=
      Real.sq_sqrt hpos.le
    have hv : calculate_orbital_velocity_vector cpos opos M m G cw =
        (if cw then
          (Real.sqrt (G * (M + m) /
              Real.sqrt ((opos.1 - cpos.1) ^ 2 + (opos.2 - cpos.2) ^ 2)) *
            ((opos.2 - cpos.2) /
              Real.sqrt ((opos.1 - cpos.1) ^ 2 + (opos.2 - cpos.2) ^ 2)),
          -(Real.sqrt (G * (M + m) /
              Real.sqrt ((opos.1 - cpos.1) ^ 2 + (opos.2 - cpos.2) ^ 2))) *
            ((opos.1 - cpos.1) /
              Real.sqrt ((opos.1 - cpos.1) ^ 2 + (opos.2 - cpos.2) ^ 2)))
        else
          (-(Real.sqrt (G * (M + m) /
              Real.sqrt ((opos.1 - cpos.1) ^ 2 + (opos.2 - cpos.2) ^ 2))) *
            ((opos.2 - cpos.2) /
              Real.sqrt ((opos.1 - cpos.1) ^ 2 + (opos.2 - cpos.2) ^ 2)),
          Real.sqrt (G * (M + m) /
              Real.sqrt ((opos.1 - cpos.1) ^ 2 + (opos.2 - cpos.2) ^ 2)) *
            ((opos.1 - cpos.1) /
              Real.sqrt ((opos.1 - cpos.1) ^ 2 + (opos.2 - cpos.2) ^ 2)))) := by
      simp only [calculate_orbital_velocity_vector,
        calculate_orbital_velocity]
      rw [if_neg hd0, if_neg (not_le.2 hdpos)]
    have hs0 : 0 ≤ Real.sqrt (G * (M + m) /
        Real.sqrt ((opos.1 - cpos.1) ^ 2 + (opos.2 - cpos.2) ^ 2)) :=
      Real.sqrt_nonneg _
    cases cw with
    | false =>
      rw [hv]
      simp only [Bool.false_eq_true, ite_false]
      set d := Real.sqrt ((opos.1 - cpos.1) ^ 2 + (opos.2 - cpos.2) ^ 2)
        with hdset
      set s := Real.sqrt (G * (M + m) / d) with hsset
      refine ⟨?_, by ring,
        fun _ => Prod.ext_iff.2 ⟨by ring, by ring⟩,
        fun hcon => hcon.elim⟩
      rw [show (-s * ((opos.2 - cpos.2) / d)) ^ 2 +
            (s * ((opos.1 - cpos.1) / d)) ^ 2 =
          s ^ 2 * (((opos.1 - cpos.1) ^ 2 + (opos.2 - cpos.2) ^ 2) / d ^ 2)
          from by ring,
        ← hdd, div_self (pow_ne_zero 2 hd0), mul_one, Real.sqrt_sq hs0]
    | true =>
      rw [hv]
      simp only [ite_true]
      set d := Real.sqrt ((opos.1 - cpos.1) ^ 2 + (opos.2 - cpos.2) ^ 2)
        with hdset
      set s := Real.sqrt (G * (M + m) / d) with hsset
      refine ⟨?_, by ring,
        fun hcon => Bool.noConfusion hcon,
        fun _ => Prod.ext_iff.2 ⟨by ring, by ring⟩⟩
      rw [show (s * ((opos.2 - cpos.2) / d)) ^ 2 +
            (-s * ((opos.1 - cpos.1) / d)) ^ 2 =
          s ^ 2 * (((opos.1 - cpos.1) ^ 2 + (opos.2 - cpos.2) ^ 2) / d ^ 2)
          from by ring,
        ← hdd, div_self (pow_ne_zero 2 hd0), mul_one, Real.sqrt_sq hs0]

/-- C5 (witness): the theorem applied at coincident positions and at the
concrete distinct positions (0,0), (3,4). -/
theorem c5_orbital_velocity_vector_spec_witness :
    (((0 : ℝ), (0 : ℝ)) = ((0 : ℝ), (0 : ℝ)) ∧
      calculate_orbital_velocity_vector ((0 : ℝ), (0 : ℝ)) (0, 0) 1 1 1
        false = (0, 0)) ∧
    (((0 : ℝ), (0 : ℝ)) ≠ ((3 : ℝ), (4 : ℝ)) ∧
      (calculate_orbital_velocity_vector ((0 : ℝ), (0 : ℝ)) (3, 4) 1 1 1
          false).1 * (((3 : ℝ), (4 : ℝ)).1 - ((0 : ℝ), (0 : ℝ)).1) +
        (calculate_orbital_velocity_vector ((0 : ℝ), (0 : ℝ)) (3, 4) 1 1 1
          false).2 * (((3 : ℝ), (4 : ℝ)).2 - ((0 : ℝ), (0 : ℝ)).2) = 0) := by
  have hne : ((0 : ℝ), (0 : ℝ)) ≠ ((3 : ℝ), (4 : ℝ)) := by
    norm_num [Prod.ext_iff]
  exact ⟨⟨rfl,
      (c5_orbital_velocity_vector_spec ((0 : ℝ), (0 : ℝ)) (0, 0) 1 1 1
        false).1 rfl⟩,
    ⟨hne,
      ((c5_orbital_velocity_vector_spec ((0 : ℝ), (0 : ℝ)) (3, 4) 1 1 1
          false).2 hne _ _ _ _ rfl rfl rfl rfl).2.1⟩⟩

/-- C6 (witness): the theorem applied to the initial state. -/
theorem c6_empty_transition_is_noop_witness :
    SimulationState.init.mode = SimulationMode.godMode ∧
    SimulationState.init.bodies = [] ∧
    ControlPanel.toggle_mode SimulationState.init = SimulationState.init :=
  ⟨rfl, rfl, c6_empty_transition_is_noop SimulationState.init rfl rfl⟩

/-- C7 (counterexample): with capture-all tracking already on, switching
CoG tracking on via `toggle_auto_zoom_cog` leaves capture-all on as well —
two automatic-tracking policies are active at once, contradicting the
claim that switching one on clears the other two. -/
theorem c7_counterexample :
    (CanvasState.init.toggle_capture_all.toggle_auto_zoom_cog).auto_zoom_to_cog
        = true ∧
    (CanvasState.init.toggle_capture_all.toggle_auto_zoom_cog).capture_all_bodies
        = true := by
  decide

/-- C7 (amended): only `set_focused_body` (focus selection) clears the
other two tracking flags, and only a pan drag in simulation mode reverts
all tracking to manual; `toggle_auto_zoom_cog` and `toggle_capture_all`
flip solely their own flag, and `zoom_in`/`zoom_out` change only the zoom
scale, leaving every tracking flag as it was. -/
theorem c7_tracking_flag_discipline (c : CanvasState) (b : CelestialBody)
    (x y : ℚ) :
    ((c.set_focused_body (some b)).focus_body_mode = true ∧
      (c.set_focused_body (some b)).auto_zoom_to_cog = false ∧
      (c.set_focused_body (some b)).capture_all_bodies = false) ∧
    ((c.toggle_auto_zoom_cog).capture_all_bodies = c.capture_all_bodies ∧
      (c.toggle_auto_zoom_cog).focus_body_mode = c.focus_body_mode) ∧
    ((c.toggle_capture_all).auto_zoom_to_cog = c.auto_zoom_to_cog ∧
      (c.toggle_capture_all).focus_body_mode = c.focus_body_mode) ∧
    (c.zoom_in.auto_zoom_to_cog = c.auto_zoom_to_cog ∧
      c.zoom_in.capture_all_bodies = c.capture_all_bodies ∧
      c.zoom_in.focus_body_mode = c.focus_body_mode ∧
      c.zoom_out.auto_zoom_to_cog = c.auto_zoom_to_cog ∧
      c.zoom_out.capture_all_bodies = c.capture_all_bodies ∧
      c.zoom_out.focus_body_mode = c.focus_body_mode) ∧
    (c.is_panning = true →
      ((c.on_mouse_move SimulationMode.simulationMode x y).auto_zoom_to_cog
          = false ∧
        (c.on_mouse_move SimulationMode.simulationMode x y).capture_all_bodies
          = false ∧
        (c.on_mouse_move SimulationMode.simulationMode x y).focus_body_mode
          = false)) := by
  refine ⟨⟨rfl, rfl, rfl⟩, ⟨rfl, rfl⟩, ⟨rfl, rfl⟩,
    ⟨rfl, rfl, rfl, rfl, rfl, rfl⟩, ?_⟩
  intro hp
  by_cases h1 : c.auto_zoom_to_cog <;> by_cases h2 : c.capture_all_bodies <;>
    by_cases h3 : c.focus_body_mode <;>
      simp [CanvasState.on_mouse_move, hp, h1, h2, h3]

/-- C7 (witness): the amended theorem applied to a concrete panning
canvas state with capture-all on. -/
theorem c7_tracking_flag_discipline_witness :
    ({ CanvasState.init.toggle_capture_all with is_panning := true } : CanvasState).is_panning = true ∧
    ((({ CanvasState.init.toggle_capture_all with is_panning := true } : CanvasState).on_mouse_move
          SimulationMode.simulationMode 0 0).auto_zoom_to_cog = false ∧
      (({ CanvasState.init.toggle_capture_all with is_panning := true } : CanvasState).on_mouse_move
          SimulationMode.simulationMode 0 0).capture_all_bodies = false ∧
      (({ CanvasState.init.toggle_capture_all with is_panning := true } : CanvasState).on_mouse_move
          SimulationMode.simulationMode 0 0).focus_body_mode = false) :=
  ⟨rfl,
    (c7_tracking_flag_discipline
      ({ CanvasState.init.toggle_capture_all with is_panning := true })
      (CelestialBody.mk' ("W") 1 0 0 0 0 ("#FFFFFF")) 0 0).2.2.2.2 rfl⟩

/-- C8 (counterexample): focus body A, delete it (leaving body B), enter
simulation mode and render one frame: body A is absent from the
simulation, yet the camera policy does not revert to manual —
`focus_body_mode` is still set and `focused_body` still references the
removed body (render merely skips the focus centering via its membership
re-check). -/
theorem c8_counterexample :
    (CelestialBody.mk' ("A") 1 0 0 0 0 ("#FFFFFF")) ∉
      (ControlPanel.toggle_mode
        (((SimulationState.init.add_body
            (CelestialBody.mk' ("A") 1 0 0 0 0 ("#FFFFFF"))).add_body
            (CelestialBody.mk' ("B") 1 5 5 0 0 ("#000000"))).remove_body
          (CelestialBody.mk' ("A") 1 0 0 0 0 ("#FFFFFF")))).bodies ∧
    ((CanvasState.init.set_focused_body
        (some (CelestialBody.mk' ("A") 1 0 0 0 0
          ("#FFFFFF")))).render_camera_update 1
      (ControlPanel.toggle_mode
        (((SimulationState.init.add_body
            (CelestialBody.mk' ("A") 1 0 0 0 0 ("#FFFFFF"))).add_body
            (CelestialBody.mk' ("B") 1 5 5 0 0 ("#000000"))).remove_body
          (CelestialBody.mk' ("A") 1 0 0 0 0
            ("#FFFFFF"))))).focus_body_mode = true ∧
    ((CanvasState.init.set_focused_body
        (some (CelestialBody.mk' ("A") 1 0 0 0 0
          ("#FFFFFF")))).render_camera_update 1
      (ControlPanel.toggle_mode
        (((SimulationState.init.add_body
            (CelestialBody.mk' ("A") 1 0 0 0 0 ("#FFFFFF"))).add_body
            (CelestialBody.mk' ("B") 1 5 5 0 0 ("#000000"))).remove_body
          (CelestialBody.mk' ("A") 1 0 0 0 0
            ("#FFFFFF"))))).focused_body =
      some (CelestialBody.mk' ("A") 1 0 0 0 0 ("#FFFFFF")) := by
  decide

/-- C8 (amended): when the focused body is absent from the simulation
(and no other tracking flag is set), a rendered frame re-validates the
target's membership and leaves the camera where it was — but the focus
policy is not reverted to manual: `focus_body_mode` and `focused_body`
keep their (stale) values. -/
theorem c8_absent_focus_target_guarded_not_reverted (c : CanvasState)
    (au : ℚ) (s : SimulationState) (b : CelestialBody)
    (hf : c.focused_body = some b) (hmem : b ∉ s.bodies)
    (hcog : c.auto_zoom_to_cog = false)
    (hcap : c.capture_all_bodies = false) :
    (c.render_camera_update au s).focus_body_mode = c.focus_body_mode ∧
    (c.render_camera_update au s).focused_body = some b ∧
    (c.render_camera_update au s).center_x = c.center_x ∧
    (c.render_camera_update au s).center_y = c.center_y ∧
    (c.render_camera_update au s).zoom_level = c.zoom_level := by
  unfold CanvasState.render_camera_update
  by_cases hm : s.mode = SimulationMode.simulationMode
  · rw [if_pos hm]
    simp [hf, hmem, hcog, hcap]
  · rw [if_neg hm]
    exact ⟨rfl, hf, rfl, rfl, rfl⟩

/-- C8 (amended, witness): the theorem applied to a canvas focusing a
body absent from the empty initial simulation state. -/
theorem c8_absent_focus_target_witness :
    (CanvasState.init.set_focused_body
        (some (CelestialBody.mk' ("A") 1 0 0 0 0
          ("#FFFFFF")))).focused_body =
      some (CelestialBody.mk' ("A") 1 0 0 0 0 ("#FFFFFF")) ∧
    (CelestialBody.mk' ("A") 1 0 0 0 0 ("#FFFFFF")) ∉
      SimulationState.init.bodies ∧
    ((CanvasState.init.set_focused_body
        (some (CelestialBody.mk' ("A") 1 0 0 0 0
          ("#FFFFFF")))).render_camera_update 1
        SimulationState.init).focus_body_mode =
      (CanvasState.init.set_focused_body
        (some (CelestialBody.mk' ("A") 1 0 0 0 0
          ("#FFFFFF")))).focus_body_mode :=
  ⟨rfl, by decide,
    (c8_absent_focus_target_guarded_not_reverted
      (CanvasState.init.set_focused_body
        (some (CelestialBody.mk' ("A") 1 0 0 0 0 ("#FFFFFF")))) 1
      SimulationState.init
      (CelestialBody.mk' ("A") 1 0 0 0 0 ("#FFFFFF")) rfl (by decide)
      rfl rfl).1⟩

/-- One `step_simulation` call in a live running state advances elapsed
time by exactly `time_step` and leaves `time_step`, the mode and the
liveness of the integrator handle intact. -/
theorem step_simulation_preserves_clock
    (stepFn : ℚ → List NBody → List NBody) (t : SimulationState)
    (hm : t.mode = SimulationMode.simulationMode) (ks : List NBody)
    (hk : t.kosmos = some ks) :
    (t.step_simulation stepFn).time_elapsed =
        t.time_elapsed + t.time_step ∧
    (t.step_simulation stepFn).time_step = t.time_step ∧
    (t.step_simulation stepFn).mode = t.mode ∧
    (∃ ks', (t.step_simulation stepFn).kosmos = some ks') := by
  have hmne : ¬ t.mode ≠ SimulationMode.simulationMode := by simp [hm]
  simp only [SimulationState.step_simulation, hk, hmne, if_false,
    reduceCtorEq, ite_false]
  exact ⟨by trivial, by trivial, by trivial,
    ⟨stepFn t.time_step ks, by trivial⟩⟩

/-- n iterated `step_simulation` calls advance elapsed time by exactly
n·`time_step` without touching `time_step`. -/
theorem iterate_step_clock (stepFn : ℚ → List NBody → List NBody)
    (n : ℕ) (t : SimulationState)
    (hm : t.mode = SimulationMode.simulationMode)
    (hk : ∃ ks, t.kosmos = some ks) :
    ((SimulationState.step_simulation stepFn)^[n] t).time_elapsed =
        t.time_elapsed + (n : ℚ) * t.time_step ∧
    ((SimulationState.step_simulation stepFn)^[n] t).time_step =
        t.time_step ∧
    ((SimulationState.step_simulation stepFn)^[n] t).mode = t.mode ∧
    (∃ ks, ((SimulationState.step_simulation stepFn)^[n] t).kosmos =
        some ks) := by
  induction n with
  | zero => exact ⟨by simp, rfl, rfl, hk⟩
  | succ n ih =>
    obtain ⟨ih1, ih2, ih3, ks, hks⟩ := ih
    rw [Function.iterate_succ_apply']
    have hstep := step_simulation_preserves_clock stepFn
      ((SimulationState.step_simulation stepFn)^[n] t)
      (by rw [ih3]; exact hm) ks hks
    refine ⟨?_, ?_, ?_, hstep.2.2.2⟩
    · rw [hstep.1, ih1, ih2]; push_cast; ring
    · rw [hstep.2.1, ih2]
    · rw [hstep.2.2.1, ih3]

/-- C9 (counterexample): at the positive time-warp value 0.19 the code
performs `int(10*0.19) = 1` step per frame while the claimed formula
`clamp(round(10*0.19), 1, 1000)` gives 2. -/
theorem c9_counterexample :
    (0 : ℚ) < 19 / 100 ∧
    NBodyApp.animation_steps
        { SimulationState.init with time_warp := 19 / 100 } = 1 ∧
    NBodyApp.claimed_steps (19 / 100) = 2 := by
  refine ⟨by norm_num, ?_, ?_⟩
  · norm_num [NBodyApp.animation_steps, NBodyApp.pyInt,
      NBodyApp.animation_steps_per_frame]
  · have h : round ((NBodyApp.animation_steps_per_frame : ℚ) * (19 / 100)) =
        2 := by
      norm_num [NBodyApp.animation_steps_per_frame, round_eq]
    simp [NBodyApp.claimed_steps, h]

/-- C9 (amended): while playback is running, each frame of
`animation_loop` performs exactly `clamp(int(10 * time_warp), 1, 1000)`
calls to `step_simulation` — `int` truncating toward zero, not rounding —
without changing the physical step size `time_step` (and therefore
advancing elapsed time by exactly that many `time_step`s). -/
theorem c9_time_warp_steps_truncated
    (stepFn : ℚ → List NBody → List NBody) (s : SimulationState)
    (hm : s.mode = SimulationMode.simulationMode)
    (hr : s.is_running = true) (ks : List NBody) (hk : s.kosmos = some ks)
    (hw : 0 < s.time_warp) :
    NBodyApp.animation_loop stepFn s =
      (SimulationState.step_simulation stepFn)^[
        (max 1 (min ⌊(10 : ℚ) * s.time_warp⌋ 1000)).toNat] s ∧
    (NBodyApp.animation_loop stepFn s).time_step = s.time_step ∧
    (NBodyApp.animation_loop stepFn s).time_elapsed =
      s.time_elapsed +
        (((max 1 (min ⌊(10 : ℚ) * s.time_warp⌋ 1000)).toNat : ℚ) *
          s.time_step) := by
  have hwpos : ¬ (10 : ℚ) * s.time_warp < 0 := by
    have : (0 : ℚ) < 10 * s.time_warp := by positivity
    linarith
  have hn : NBodyApp.animation_steps s =
      max 1 (min ⌊(10 : ℚ) * s.time_warp⌋ 1000) := by
    have hc : ((NBodyApp.animation_steps_per_frame : ℕ) : ℚ) = (10 : ℚ) := by
      norm_num [NBodyApp.animation_steps_per_frame]
    simp [NBodyApp.animation_steps, NBodyApp.pyInt, hc, hwpos]
  have hloop : NBodyApp.animation_loop stepFn s =
      (SimulationState.step_simulation
        stepFn)^[(NBodyApp.animation_steps s).toNat] s := by
    unfold NBodyApp.animation_loop
    rw [if_pos ⟨hm, by simp [hr]⟩]
  have hiter := iterate_step_clock stepFn
    (max 1 (min ⌊(10 : ℚ) * s.time_warp⌋ 1000)).toNat s hm ⟨ks, hk⟩
  refine ⟨by rw [hloop, hn], ?_, ?_⟩
  · rw [hloop, hn]
    exact hiter.2.1
  · rw [hloop, hn]
    exact hiter.1

/-- C9 (witness): the amended theorem applied to a running one-body
playback state at time warp 1 and the identity step function. -/
theorem c9_time_warp_steps_truncated_witness :
    (ControlPanel.toggle_mode (SimulationState.init.add_body
        (CelestialBody.mk' ("A") 1 0 0 0 0 ("#FFFFFF")))).mode =
      SimulationMode.simulationMode ∧
    (ControlPanel.toggle_mode (SimulationState.init.add_body
        (CelestialBody.mk' ("A") 1 0 0 0 0 ("#FFFFFF")))).is_running =
      true ∧
    (ControlPanel.toggle_mode (SimulationState.init.add_body
        (CelestialBody.mk' ("A") 1 0 0 0 0 ("#FFFFFF")))).kosmos =
      some [⟨1, 0, 0, 0, 0⟩] ∧
    (0 : ℚ) < (ControlPanel.toggle_mode (SimulationState.init.add_body
        (CelestialBody.mk' ("A") 1 0 0 0 0 ("#FFFFFF")))).time_warp ∧
    (NBodyApp.animation_loop (fun _ l => l)
        (ControlPanel.toggle_mode (SimulationState.init.add_body
          (CelestialBody.mk' ("A") 1 0 0 0 0
            ("#FFFFFF"))))).time_step =
      (ControlPanel.toggle_mode (SimulationState.init.add_body
        (CelestialBody.mk' ("A") 1 0 0 0 0 ("#FFFFFF")))).time_step :=
  ⟨rfl, rfl, rfl, by decide,
    (c9_time_warp_steps_truncated (fun _ l => l)
      (ControlPanel.toggle_mode (SimulationState.init.add_body
        (CelestialBody.mk' ("A") 1 0 0 0 0 ("#FFFFFF")))) rfl rfl
      [⟨1, 0, 0, 0, 0⟩] rfl (by decide)).2.1⟩
